import Mathlib

/-!
Shallow embedding of the TouritBackend auth and intake handlers
(src/server.js) together with proofs about the natural-language
specification of the OTP, signup, login, password-reset, contact and
booking flows.

Modelling conventions:
* MongoDB collections become Lean lists; `User.findOne({email})` becomes
  `List.find?` on the email field; `doc.save()` on a found document
  becomes replacement by `_id` in the list.
* Timestamps (`Date.now()`, `otpExpires`, ...) are natural numbers in
  milliseconds.
* `bcrypt.hash` outputs and `bcrypt.compare` are abstract: handlers take
  the already-hashed string, and login takes the compare function as a
  parameter.
* `jwt.sign`/`jwt.verify` are modelled by a token structure carrying the
  payload (`userId`), the expiry and the signing secret; verification
  succeeds exactly when the secret matches and the expiry has not passed
  (the jsonwebtoken library throws on a bad signature or an expired
  token, which the handlers catch as a 500 "Server error" response).
* `transporter.sendMail` outcomes are Booleans passed to the handlers
  (`true` = the promise resolved).
-/

namespace Tourit

/-- A signed token as produced by `jwt.sign(payload, secret, {expiresIn})`:
the payload field `userId`, the absolute expiry in milliseconds, and the
signing secret standing in for the signature. Two signings of the same
payload with the same secret produce equal tokens. -/
structure JwtToken where
  userId : String
  exp : Nat
  secret : String
deriving DecidableEq, Repr

/-- `jwt.verify(token, secret)` at time `now`: returns the decoded
`userId` when the signature matches and the token has not expired
(`jsonwebtoken` throws TokenExpiredError as soon as `now ≥ exp`);
returns `none` when the library would throw. -/
def jwtVerify (t : JwtToken) (secret : String) (now : Nat) : Option String :=
  if t.secret = secret ∧ now < t.exp then some t.userId else none

/-- One document of the `users` collection (userSchema in src/server.js):
name, email (unique), bcrypt-hashed password, `verified` flag
(schema default `false`), plus the nullable OTP and password-reset
fields. `id` is the Mongo `_id`. -/
structure UserR where
  id : String
  name : String
  email : String
  password : String
  verified : Bool
  otp : Option String
  otpExpires : Option Nat
  resetPasswordToken : Option JwtToken
  resetPasswordExpire : Option Nat
deriving DecidableEq, Repr

/-- The `users` collection. -/
abbrev Store := List UserR

/-- `User.findOne({ email })`. -/
def findUserByEmail (s : Store) (email : String) : Option UserR :=
  s.find? (fun u => u.email == email)

/-- `user.save()` on a document previously loaded from the collection:
the document with the same `_id` is replaced. -/
def saveUser (s : Store) (u : UserR) : Store :=
  s.map (fun v => if v.id == u.id then u else v)

/-- Outcome of POST /api/auth/verify-otp, in the order the handler
checks: 400 "User not found", 400 "Invalid OTP", 400 "OTP expired",
or the 200 success response "Account verified! You can now log in." -/
inductive VerifyOtpResult where
  | userNotFound
  | invalidOtp
  | otpExpired
  | verified
deriving DecidableEq, Repr

/-- POST /api/auth/verify-otp handler (src/server.js lines 149-167).
`User.findOne({email})`; if absent, "User not found"; if
`user.otp !== otp`, "Invalid OTP"; if `user.otpExpires < Date.now()`,
"OTP expired" (a null `otpExpires` coerces to 0 in the JS comparison,
hence `getD 0`); otherwise set `verified = true`, null the OTP fields
and save. The user document itself is never deleted. -/
def verifyOtp (s : Store) (email otp : String) (now : Nat) :
    Store × VerifyOtpResult :=
  match findUserByEmail s email with
  | none => (s, .userNotFound)
  | some user =>
    if user.otp ≠ some otp then (s, .invalidOtp)
    else if user.otpExpires.getD 0 < now then (s, .otpExpired)
    else (saveUser s { user with verified := true, otp := none, otpExpires := none },
          .verified)

/-- JSON envelope returned by the signup handler. `token` records
whether the response carries a session token (the signup handler puts
none in any of its responses). -/
structure SignupResponse where
  status : Nat
  success : Bool
  message : String
  token : Option JwtToken
deriving DecidableEq, Repr

/-- POST /api/auth/signup handler (src/server.js lines 116-147).
`hashedPassword` stands for `await bcrypt.hash(password, 10)`, `otp`
for the generated 6-digit code, `newId` for the fresh Mongo `_id`,
`emailOk` for whether `transporter.sendMail` resolved and `emailErrMsg`
for the delivery error message surfaced by the catch block. The user is
saved before the mail is sent, so a delivery failure leaves the saved
record in place and returns 500 with the error message. -/
def signup (s : Store) (newId name email hashedPassword otp : String)
    (now : Nat) (emailOk : Bool) (emailErrMsg : String) :
    Store × SignupResponse :=
  match findUserByEmail s email with
  | some _ =>
      (s, { status := 400, success := false,
            message := "Email already in use", token := none })
  | none =>
    let user : UserR :=
      { id := newId, name := name, email := email,
        password := hashedPassword, verified := false,
        otp := some otp, otpExpires := some (now + 10 * 60 * 1000),
        resetPasswordToken := none, resetPasswordExpire := none }
    let s1 := s ++ [user]
    if emailOk then
      (s1, { status := 201, success := true,
             message := "OTP sent to your email. Please verify.",
             token := none })
    else
      (s1, { status := 500, success := false,
             message := emailErrMsg, token := none })

/-- JSON envelope returned by the login handler. -/
structure LoginResponse where
  status : Nat
  success : Bool
  token : Option JwtToken
  message : String
deriving DecidableEq, Repr

/-- POST /api/auth/login handler (src/server.js lines 169-192).
`bcryptCompare submitted stored` models `bcrypt.compare`. On success a
token `jwt.sign({userId: user._id}, secret, {expiresIn: "7d"})` is
issued. The handler performs no writes, so the store is returned
unchanged on every path. -/
def login (s : Store) (email password : String)
    (bcryptCompare : String → String → Bool) (secret : String) (now : Nat) :
    Store × LoginResponse :=
  match findUserByEmail s email with
  | none =>
      (s, { status := 401, success := false, token := none,
            message := "Invalid credentials" })
  | some user =>
    if user.verified = false then
      (s, { status := 401, success := false, token := none,
            message := "Please verify your email first." })
    else if bcryptCompare password user.password = false then
      (s, { status := 401, success := false, token := none,
            message := "Invalid credentials" })
    else
      (s, { status := 200, success := true,
            token := some { userId := user.id,
                            exp := now + 7 * 24 * 60 * 60 * 1000,
                            secret := secret },
            message := "Login successful" })

/-- POST /api/auth/forgot-password handler (src/server.js lines
194-229), restricted to its store effect: signs a 15-minute token bound
to the user id and saves it with `resetPasswordExpire = now + 15min` on
the user document. Returns the token that was put in the reset link
(none when no user matches the email). -/
def forgotPassword (s : Store) (email secret : String) (now : Nat) :
    Store × Option JwtToken :=
  match findUserByEmail s email with
  | none => (s, none)
  | some user =>
    let t : JwtToken :=
      { userId := user.id, exp := now + 15 * 60 * 1000, secret := secret }
    (saveUser s { user with resetPasswordToken := some t,
                            resetPasswordExpire := some (now + 15 * 60 * 1000) },
     some t)

/-- Outcome of POST /api/auth/reset-password/:token: 400 "Invalid or
expired token" (the findOne query matched no user), 500 "Server error"
(`jwt.verify` threw: bad signature or token past its JWT expiry), or
the 200 success "Password reset successful". -/
inductive ResetResult where
  | invalidOrExpired
  | serverError
  | resetOk
deriving DecidableEq, Repr

/-- The findOne filter of the reset handler:
`{_id: decoded.userId, resetPasswordToken: token,
resetPasswordExpire: {$gt: Date.now()}}`. A missing
`resetPasswordExpire` never satisfies `$gt`. -/
def resetFindCond (userId : String) (token : JwtToken) (now : Nat)
    (u : UserR) : Bool :=
  decide (u.id = userId) && decide (u.resetPasswordToken = some token) &&
    (match u.resetPasswordExpire with
     | some e => decide (now < e)
     | none => false)

/-- POST /api/auth/reset-password/:token handler (src/server.js lines
231-258). `newHashed` stands for `await bcrypt.hash(password, 10)`.
When `jwt.verify` throws the catch block answers 500 "Server error";
when the guarded findOne misses, 400 "Invalid or expired token";
otherwise the password is replaced and the reset fields cleared. -/
def resetPassword (s : Store) (token : JwtToken) (newHashed secret : String)
    (now : Nat) : Store × ResetResult :=
  match jwtVerify token secret now with
  | none => (s, .serverError)
  | some userId =>
    match s.find? (resetFindCond userId token now) with
    | none => (s, .invalidOrExpired)
    | some user =>
      let user1 : UserR :=
        { user with password := newHashed, resetPasswordToken := none,
                    resetPasswordExpire := none }
      (saveUser s user1, .resetOk)

/-- One document of the `contacts` collection (contactSchema), as built
by the contact handler (coordinates of the GeoJSON Point kept as the
raw list from the request). -/
structure ContactRec where
  name : String
  email : String
  phone : Option String
  subject : String
  message : String
  coordinates : List Int
  ipAddress : String
deriving DecidableEq, Repr

/-- JSON envelope of POST /api/contact: HTTP status, `success`, and the
per-channel `emailsSent` flags (`admin` and `client`). -/
structure ContactResponse where
  status : Nat
  success : Bool
  adminSent : Bool
  clientSent : Bool
deriving DecidableEq, Repr

/-- JavaScript truthiness of an optional string request field: a
missing field is `undefined` (falsy) and the empty string is falsy. -/
def truthyStr : Option String → Bool
  | none => false
  | some s => s ≠ ""

/-- POST /api/contact handler (src/server.js lines 261-366). Validates
that name, email, subject, message and coordinates are truthy (400
otherwise); saves the contact (`saveOk` = the save resolved, 500
otherwise); then fires the two notification mails whose rejections are
caught and only recorded in `mailResults`, and answers 201 success with
the per-channel flags regardless of delivery outcome. -/
def contactHandler (db : List ContactRec)
    (name email phone subject message : Option String)
    (coordinates : Option (List Int)) (ip : String)
    (saveOk adminMailOk clientMailOk : Bool) :
    List ContactRec × ContactResponse :=
  if truthyStr name = false ∨ truthyStr email = false ∨
      truthyStr subject = false ∨ truthyStr message = false ∨
      coordinates = none then
    (db, { status := 400, success := false,
           adminSent := false, clientSent := false })
  else if saveOk = false then
    (db, { status := 500, success := false,
           adminSent := false, clientSent := false })
  else
    let rec0 : ContactRec :=
      { name := (name.getD ""), email := (email.getD ""), phone := phone,
        subject := (subject.getD ""), message := (message.getD ""),
        coordinates := (coordinates.getD []), ipAddress := ip }
    (db ++ [rec0],
     { status := 201, success := true,
       adminSent := adminMailOk, clientSent := clientMailOk })

/-- One document of the `bookings` collection (bookingSchema). The
nested free-form objects (travelerInfo, addons, the per-category data
and payment) are untyped `Object` blobs in the schema; they are kept
here as one opaque `payload` string, since no handler logic inspects
them beyond template interpolation. -/
structure BookingRec where
  bookingId : String
  userId : String
  payload : String
deriving DecidableEq, Repr

/-- JSON envelope of POST /api/bookings: status (`res.json` default
200 on the success path, 500 from the catch block), `success`, and the
per-channel `emailsSent` flags (`admin` and `user`). -/
structure BookingResponse where
  status : Nat
  success : Bool
  adminSent : Bool
  userSent : Bool
deriving DecidableEq, Repr

/-- POST /api/bookings handler (src/server.js lines 390-496). No
validation: the booking is saved (`saveOk` = the save resolved, 500
from the catch block otherwise); the two notification mails have their
rejections caught and recorded only in `mailResults`; the handler then
answers success with the per-channel flags regardless of delivery
outcome. -/
def bookingsHandler (db : List BookingRec) (b : BookingRec)
    (saveOk adminMailOk userMailOk : Bool) :
    List BookingRec × BookingResponse :=
  if saveOk = false then
    (db, { status := 500, success := false,
           adminSent := false, userSent := false })
  else
    (db ++ [b],
     { status := 200, success := true,
       adminSent := adminMailOk, userSent := userMailOk })

/-- The OTP generation expression of the signup handler
(src/server.js line 124): `Math.floor(100000 + Math.random() * 900000)`,
with the value `r` of the random source modelled as a rational number
in [0, 1). The result is the integer later rendered by `.toString()`. -/
def genOtp (r : ℚ) : ℤ :=
  ⌊(100000 : ℚ) + r * 900000⌋

/-! ### Store lemmas -/

/-- A user returned by `findOne({email})` has that email. -/
theorem findUserByEmail_email (s : Store) (email : String) (u : UserR)
    (h : findUserByEmail s email = some u) : u.email = email := by
  have hp := List.find?_some h
  simpa [beq_iff_eq] using hp

/-- After saving a modified copy `u2` of the user that `findOne({email})`
returned (same `_id`, same email), `findOne({email})` returns `u2`. -/
theorem findUserByEmail_saveUser (s : Store) (email : String) (user u2 : UserR)
    (hid : u2.id = user.id) (hemail : u2.email = email) :
    findUserByEmail s email = some user →
    findUserByEmail (saveUser s u2) email = some u2 := by
  induction s with
  | nil => intro h; simp [findUserByEmail] at h
  | cons v t ih =>
    intro hfind
    by_cases hv : v.email = email
    · have hvu : v = user := by
        have h0 : findUserByEmail (v :: t) email = some v := by
          unfold findUserByEmail
          exact List.find?_cons_of_pos _ (by simp [hv])
        rw [h0] at hfind
        exact Option.some.inj hfind
      unfold saveUser
      rw [List.map_cons]
      rw [if_pos (show (v.id == u2.id) = true by simp [hid, hvu])]
      unfold findUserByEmail
      exact List.find?_cons_of_pos _ (by simp [hemail])
    · have hfind1 : findUserByEmail t email = some user := by
        have h0 : findUserByEmail (v :: t) email = findUserByEmail t email := by
          unfold findUserByEmail
          exact List.find?_cons_of_neg _ (by simp [hv])
        rw [h0] at hfind
        exact hfind
      by_cases hvid : v.id = u2.id
      · unfold saveUser
        rw [List.map_cons]
        rw [if_pos (show (v.id == u2.id) = true by simp [hvid])]
        unfold findUserByEmail
        exact List.find?_cons_of_pos _ (by simp [hemail])
      · unfold saveUser
        rw [List.map_cons]
        rw [if_neg (show ¬ (v.id == u2.id) = true by simp [hvid])]
        have htail := ih hfind1
        unfold findUserByEmail at htail ⊢
        rw [List.find?_cons_of_neg _ (by simp [hv])]
        exact htail

/-- Inserting a user for an email that `findOne({email})` missed makes
`findOne({email})` return the inserted user. -/
theorem findUserByEmail_append (s : Store) (email : String) (u : UserR)
    (h : findUserByEmail s email = none) (he : u.email = email) :
    findUserByEmail (s ++ [u]) email = some u := by
  induction s with
  | nil =>
    unfold findUserByEmail
    exact List.find?_cons_of_pos _ (by simp [he])
  | cons v t ih =>
    have hv : ¬ (v.email = email) := by
      intro hv
      have h0 : findUserByEmail (v :: t) email = some v := by
        unfold findUserByEmail
        exact List.find?_cons_of_pos _ (by simp [hv])
      rw [h0] at h
      exact Option.noConfusion h
    have h1 : findUserByEmail t email = none := by
      have h0 : findUserByEmail (v :: t) email = findUserByEmail t email := by
        unfold findUserByEmail
        exact List.find?_cons_of_neg _ (by simp [hv])
      rw [h0] at h
      exact h
    have htail := ih h1
    unfold findUserByEmail at htail ⊢
    rw [List.cons_append]
    rw [List.find?_cons_of_neg _ (by simp [hv])]
    exact htail

/-! ### Concrete fixtures -/

/-- A user as created by signup at time 0: OTP "123456",
`otpExpires = 600000` (ten minutes), not yet verified. -/
def cexUser : UserR :=
  { id := "u1", name := "Asha", email := "a@example.com", password := "hashA",
    verified := false, otp := some "123456", otpExpires := some 600000,
    resetPasswordToken := none, resetPasswordExpire := none }

/-- A one-user collection holding `cexUser`. -/
def cexStore : Store := [cexUser]

/-! ### Claims -/

/-- Claim C1 counterexample: with the stored OTP expired
(`otpExpires = 600000 < now = 600001`), verify with the correct code
does return the Expired outcome, but the record is NOT purged (the
store is unchanged), and a subsequent verify with the correct code
returns Expired again, not NotFound, contradicting the claim. -/
theorem c1_counterexample :
    (verifyOtp cexStore "a@example.com" "123456" 600001).2 =
      VerifyOtpResult.otpExpired ∧
    (verifyOtp cexStore "a@example.com" "123456" 600001).1 = cexStore ∧
    (verifyOtp (verifyOtp cexStore "a@example.com" "123456" 600001).1
      "a@example.com" "123456" 600002).2 ≠ VerifyOtpResult.userNotFound := by
  decide

/-- Claim C1 (amended): verifying an expired OTP with the correct code
fails with Expired, but the record is left in place (no purge), and a
subsequent verify with the correct code fails with Expired again (not
NotFound). -/
theorem c1_expired_not_purged (s : Store) (email code : String) (user : UserR)
    (now now2 : Nat)
    (hfind : findUserByEmail s email = some user)
    (hotp : user.otp = some code)
    (hexp : user.otpExpires.getD 0 < now)
    (hexp2 : user.otpExpires.getD 0 < now2) :
    verifyOtp s email code now = (s, VerifyOtpResult.otpExpired) ∧
    verifyOtp s email code now2 = (s, VerifyOtpResult.otpExpired) := by
  unfold verifyOtp
  rw [hfind]
  simp [hotp, hexp, hexp2]

/-- Claim C1 (amended) at a concrete input: the expired-OTP verify at
times 600001 and 600002 on the fixture store. -/
theorem c1_expired_not_purged_witness :
    verifyOtp cexStore "a@example.com" "123456" 600001 =
      (cexStore, VerifyOtpResult.otpExpired) ∧
    verifyOtp cexStore "a@example.com" "123456" 600002 =
      (cexStore, VerifyOtpResult.otpExpired) :=
  c1_expired_not_purged cexStore "a@example.com" "123456" cexUser 600001 600002
    (by decide) (by decide) (by decide) (by decide)

/-- Claim C2 counterexample: the first verify with the correct code
succeeds, but the second verify with the same code fails with
Invalid OTP (the OTP field was nulled on the still-present user
document), not with NotFound as the claim states. -/
theorem c2_counterexample :
    (verifyOtp cexStore "a@example.com" "123456" 1).2 =
      VerifyOtpResult.verified ∧
    (verifyOtp (verifyOtp cexStore "a@example.com" "123456" 1).1
      "a@example.com" "123456" 2).2 = VerifyOtpResult.invalidOtp ∧
    (verifyOtp (verifyOtp cexStore "a@example.com" "123456" 1).1
      "a@example.com" "123456" 2).2 ≠ VerifyOtpResult.userNotFound := by
  decide

/-- Claim C2 (amended): verifying twice with the same correct code
succeeds at most once, but single use is enforced by nulling the OTP
fields on the saved user document, so the second call fails with
Invalid OTP (Mismatch), not NotFound. -/
theorem c2_single_use (s : Store) (email code : String) (user : UserR)
    (now now2 : Nat)
    (hfind : findUserByEmail s email = some user)
    (hotp : user.otp = some code)
    (hlive : ¬ user.otpExpires.getD 0 < now) :
    (verifyOtp s email code now).2 = VerifyOtpResult.verified ∧
    (verifyOtp (verifyOtp s email code now).1 email code now2).2 =
      VerifyOtpResult.invalidOtp := by
  have hemail := findUserByEmail_email s email user hfind
  have hfirst : verifyOtp s email code now =
      (saveUser s { user with verified := true, otp := none, otpExpires := none },
       VerifyOtpResult.verified) := by
    unfold verifyOtp
    rw [hfind]
    simp [hotp, hlive]
  refine ⟨by rw [hfirst], ?_⟩
  rw [hfirst]
  have hfind2 := findUserByEmail_saveUser s email user
    { user with verified := true, otp := none, otpExpires := none }
    rfl hemail hfind
  unfold verifyOtp
  rw [hfind2]
  simp

/-- Claim C2 (amended) at a concrete input: issue-then-verify-twice on
the fixture store at times 1 and 2. -/
theorem c2_single_use_witness :
    (verifyOtp cexStore "a@example.com" "123456" 1).2 =
      VerifyOtpResult.verified ∧
    (verifyOtp (verifyOtp cexStore "a@example.com" "123456" 1).1
      "a@example.com" "123456" 2).2 = VerifyOtpResult.invalidOtp :=
  c2_single_use cexStore "a@example.com" "123456" cexUser 1 2
    (by decide) (by decide) (by decide)

/-- Claim C3 (confirmed): with a live record, a mismatched code fails
with Invalid OTP and leaves the store unchanged, and a later verify
with the correct code within the TTL succeeds. -/
theorem c3_mismatch_frame (s : Store) (email code wrong : String)
    (user : UserR) (now now2 : Nat)
    (hfind : findUserByEmail s email = some user)
    (hotp : user.otp = some code)
    (hwrong : wrong ≠ code)
    (hlive : ¬ user.otpExpires.getD 0 < now)
    (hlive2 : ¬ user.otpExpires.getD 0 < now2) :
    verifyOtp s email wrong now = (s, VerifyOtpResult.invalidOtp) ∧
    (verifyOtp s email code now2).2 = VerifyOtpResult.verified := by
  constructor
  · unfold verifyOtp
    rw [hfind]
    simp [hotp, Ne.symm hwrong]
  · unfold verifyOtp
    rw [hfind]
    simp [hotp, hlive2]

/-- Claim C3 at a concrete input: wrong code "000000" at time 1, then
the correct code at time 2, on the fixture store. -/
theorem c3_mismatch_frame_witness :
    verifyOtp cexStore "a@example.com" "000000" 1 =
      (cexStore, VerifyOtpResult.invalidOtp) ∧
    (verifyOtp cexStore "a@example.com" "123456" 2).2 =
      VerifyOtpResult.verified :=
  c3_mismatch_frame cexStore "a@example.com" "123456" "000000" cexUser 1 2
    (by decide) (by decide) (by decide) (by decide) (by decide)

/-- Claim C4 (confirmed): signup for an email that already has an
account answers 400 "Email already in use" and leaves the collection
exactly as it was. -/
theorem c4_duplicate_email (s : Store) (newId name email hpw otp : String)
    (now : Nat) (emailOk : Bool) (errMsg : String) (u : UserR)
    (hfind : findUserByEmail s email = some u) :
    signup s newId name email hpw otp now emailOk errMsg =
      (s, { status := 400, success := false,
            message := "Email already in use", token := none }) := by
  unfold signup
  rw [hfind]

/-- Claim C4 at a concrete input: signing up again with the fixture
user's email. -/
theorem c4_duplicate_email_witness :
    signup cexStore "u2" "Bea" "a@example.com" "hashB" "999999" 5 true "" =
      (cexStore, { status := 400, success := false,
                   message := "Email already in use", token := none }) :=
  c4_duplicate_email cexStore "u2" "Bea" "a@example.com" "hashB" "999999"
    5 true "" cexUser (by decide)

/-- The token the forgot-password handler signs at time 0 for the
fixture user, with secret "secret": 15-minute JWT expiry. -/
def cexResetToken : JwtToken :=
  { userId := "u1", exp := 900000, secret := "secret" }

/-- The store after the fixture user requested a password reset at
time 0: the token and its 15-minute expiry are saved on the user. -/
def cexResetStore : Store :=
  (forgotPassword cexStore "a@example.com" "secret" 0).1

/-- Claim C5 counterexample: the reset link token issued at time 0 is
presented at time 900001, one millisecond after its 15-minute window;
`jwt.verify` throws (the JWT itself has expired) and the handler
answers 500 "Server error", not the 400 "Invalid or expired token"
response the claim names. The store (hence the stored password hash)
is unchanged. -/
theorem c5_counterexample :
    (forgotPassword cexStore "a@example.com" "secret" 0).2 =
      some cexResetToken ∧
    (resetPassword cexResetStore cexResetToken "newHash" "secret" 900001).2 =
      ResetResult.serverError ∧
    (resetPassword cexResetStore cexResetToken "newHash" "secret" 900001).2 ≠
      ResetResult.invalidOrExpired ∧
    (resetPassword cexResetStore cexResetToken "newHash" "secret" 900001).1 =
      cexResetStore := by
  decide

/-- Claim C5 (amended): a reset attempt made after every stored expiry
has passed, or bearing a token that fails cryptographic verification,
does not mutate the store (the stored password hash is unchanged) and
fails; the failure is 500 ServerError when `jwt.verify` throws (which
covers every attempt with the issued token after its 15-minute JWT
expiry, and every bad signature) and 400 InvalidOrExpiredToken when the
token verifies but matches no stored record. -/
theorem c5_no_mutation_after_expiry (s : Store) (token : JwtToken)
    (newHashed secret : String) (now : Nat)
    (h : (∀ u ∈ s, ∀ e, u.resetPasswordExpire = some e → e ≤ now) ∨
         token.secret ≠ secret) :
    (resetPassword s token newHashed secret now).1 = s ∧
    ((resetPassword s token newHashed secret now).2 = ResetResult.serverError ∨
     (resetPassword s token newHashed secret now).2 =
       ResetResult.invalidOrExpired) := by
  have hres : resetPassword s token newHashed secret now =
        (s, ResetResult.serverError) ∨
      resetPassword s token newHashed secret now =
        (s, ResetResult.invalidOrExpired) := by
    cases hv : jwtVerify token secret now with
    | none =>
      left
      unfold resetPassword
      rw [hv]
    | some userId =>
      have hsec : token.secret = secret ∧ now < token.exp := by
        by_contra hc
        unfold jwtVerify at hv
        rw [if_neg hc] at hv
        exact Option.noConfusion hv
      have hall : ∀ u ∈ s, ∀ e, u.resetPasswordExpire = some e → e ≤ now := by
        cases h with
        | inl h1 => exact h1
        | inr h2 => exact absurd hsec.1 h2
      have hnone : s.find? (resetFindCond userId token now) = none := by
        rw [List.find?_eq_none]
        intro u hu
        have hcase : ∀ e, u.resetPasswordExpire = some e → ¬ now < e :=
          fun e he => Nat.not_lt.mpr (hall u hu e he)
        cases he : u.resetPasswordExpire with
        | none => simp [resetFindCond, he]
        | some e => simp [resetFindCond, he, hcase e he]
      right
      unfold resetPassword
      rw [hv]
      simp [hnone]
  cases hres with
  | inl h1 => rw [h1]; exact ⟨rfl, Or.inl rfl⟩
  | inr h1 => rw [h1]; exact ⟨rfl, Or.inr rfl⟩

/-- Claim C5 (amended) at a concrete input: the issued token presented
one millisecond past the stored window. -/
theorem c5_no_mutation_after_expiry_witness :
    (resetPassword cexResetStore cexResetToken "newHash" "secret" 900001).1 =
      cexResetStore ∧
    ((resetPassword cexResetStore cexResetToken "newHash" "secret" 900001).2 =
       ResetResult.serverError ∨
     (resetPassword cexResetStore cexResetToken "newHash" "secret" 900001).2 =
       ResetResult.invalidOrExpired) :=
  c5_no_mutation_after_expiry cexResetStore cexResetToken "newHash" "secret"
    900001 (Or.inl (by decide))

/-- Claim C6 (confirmed): when the signup insert succeeds but the OTP
mail delivery fails, the handler reports the delivery error to the
caller (500 with the error message) and does not roll the record back:
the stored code still verifies within its TTL. -/
theorem c6_delivery_failure_keeps_record (s : Store)
    (newId name email hpw otp : String) (now now2 : Nat) (errMsg : String)
    (hfresh : findUserByEmail s email = none)
    (hlive : ¬ now + 10 * 60 * 1000 < now2) :
    (signup s newId name email hpw otp now false errMsg).2 =
      { status := 500, success := false, message := errMsg, token := none } ∧
    (verifyOtp (signup s newId name email hpw otp now false errMsg).1
      email otp now2).2 = VerifyOtpResult.verified := by
  have hsig : signup s newId name email hpw otp now false errMsg =
      (s ++ [{ id := newId, name := name, email := email, password := hpw,
               verified := false, otp := some otp,
               otpExpires := some (now + 10 * 60 * 1000),
               resetPasswordToken := none, resetPasswordExpire := none }],
       { status := 500, success := false, message := errMsg, token := none }) := by
    unfold signup
    rw [hfresh]
    simp
  refine ⟨by rw [hsig], ?_⟩
  rw [hsig]
  have hfind2 := findUserByEmail_append s email
    { id := newId, name := name, email := email, password := hpw,
      verified := false, otp := some otp,
      otpExpires := some (now + 10 * 60 * 1000),
      resetPasswordToken := none, resetPasswordExpire := none } hfresh rfl
  unfold verifyOtp
  rw [hfind2]
  simp [hlive]

/-- Claim C6 at a concrete input: signup at time 0 with failed mail
delivery, then a successful verify at the last instant of the TTL. -/
theorem c6_delivery_failure_keeps_record_witness :
    (signup [] "u1" "Asha" "a@example.com" "hashA" "123456" 0 false
      "sendMail failed").2 =
      { status := 500, success := false, message := "sendMail failed",
        token := none } ∧
    (verifyOtp (signup [] "u1" "Asha" "a@example.com" "hashA" "123456" 0 false
      "sendMail failed").1 "a@example.com" "123456" 600000).2 =
      VerifyOtpResult.verified :=
  c6_delivery_failure_keeps_record [] "u1" "Asha" "a@example.com" "hashA"
    "123456" 0 600000 "sendMail failed" (by decide) (by decide)

/-- Claim C7 counterexample: a successful registration (201, success)
carries no session token in its response, contradicting the claim that
a token is issued on successful registration. -/
theorem c7_counterexample :
    (signup [] "u1" "Asha" "a@example.com" "hashA" "123456" 0 true "").2.success =
      true ∧
    (signup [] "u1" "Asha" "a@example.com" "hashA" "123456" 0 true "").2.status =
      201 ∧
    (signup [] "u1" "Asha" "a@example.com" "hashA" "123456" 0 true "").2.token =
      none := by
  decide

/-- Claim C7 (amended): only successful login issues the signed,
time-bounded session token, bound to the account id with a 7-day
expiry; successful registration returns no token (the user must verify
the OTP and then log in). -/
theorem c7_token_on_login_only (s : Store) (email password : String)
    (cmp : String → String → Bool) (secret : String) (now : Nat) (user : UserR)
    (s2 : Store) (newId name2 email2 hpw otp : String) (now2 : Nat)
    (errMsg : String)
    (hfind : findUserByEmail s email = some user)
    (hver : user.verified = true)
    (hcmp : cmp password user.password = true)
    (hfresh : findUserByEmail s2 email2 = none) :
    (login s email password cmp secret now).2.token =
      some { userId := user.id, exp := now + 7 * 24 * 60 * 60 * 1000,
             secret := secret } ∧
    (signup s2 newId name2 email2 hpw otp now2 true errMsg).2 =
      { status := 201, success := true,
        message := "OTP sent to your email. Please verify.", token := none } := by
  constructor
  · unfold login
    rw [hfind]
    simp [hver, hcmp]
  · unfold signup
    rw [hfresh]
    simp

/-- String equality as a concrete stand-in for `bcrypt.compare` in
witnesses: compares the submitted password with the stored hash. -/
def cmpEq : String → String → Bool := fun a b => a == b

/-- The fixture user after OTP verification: `verified` is true and the
OTP fields are nulled. -/
def cexVerifiedUser : UserR :=
  { cexUser with verified := true, otp := none, otpExpires := none }

/-- Claim C7 (amended) at a concrete input: login of the verified
fixture user issues the 7-day token bound to "u1"; a fresh signup
response carries no token. -/
theorem c7_token_on_login_only_witness :
    (login [cexVerifiedUser] "a@example.com" "hashA" cmpEq "secret" 0).2.token =
      some { userId := "u1", exp := 604800000, secret := "secret" } ∧
    (signup [] "u2" "Bea" "b@example.com" "hashB" "999999" 0 true "").2 =
      { status := 201, success := true,
        message := "OTP sent to your email. Please verify.", token := none } :=
  c7_token_on_login_only [cexVerifiedUser] "a@example.com" "hashA" cmpEq
    "secret" 0 cexVerifiedUser [] "u2" "Bea" "b@example.com" "hashB" "999999"
    0 "" (by decide) (by decide) (by decide) (by decide)

/-- Claim C8 (confirmed): when the contact save succeeds and both
notification mails fail, the contact handler still answers 201 success
with both per-channel flags false and the record persisted; likewise
the bookings handler answers success (200) with both flags false and
the booking persisted. Notification failure is never escalated into a
failed overall response. -/
theorem c8_partial_success (db : List ContactRec) (n e sub msg : String)
    (ph : Option String) (coords : List Int) (ip : String)
    (db2 : List BookingRec) (b : BookingRec)
    (hn : n ≠ "") (he : e ≠ "") (hs : sub ≠ "") (hm : msg ≠ "") :
    contactHandler db (some n) (some e) ph (some sub) (some msg) (some coords)
      ip true false false =
      (db ++ [{ name := n, email := e, phone := ph, subject := sub,
                message := msg, coordinates := coords, ipAddress := ip }],
       { status := 201, success := true, adminSent := false,
         clientSent := false }) ∧
    bookingsHandler db2 b true false false =
      (db2 ++ [b],
       { status := 200, success := true, adminSent := false,
         userSent := false }) := by
  constructor
  · simp [contactHandler, truthyStr, hn, he, hs, hm]
  · simp [bookingsHandler]

/-- Claim C8 at a concrete input: a valid contact request and a
booking, both saved, with every notification mail failing. -/
theorem c8_partial_success_witness :
    contactHandler [] (some "Asha") (some "a@example.com") none
      (some "Hi") (some "Hello there") (some [77, 28]) "127.0.0.1"
      true false false =
      ([{ name := "Asha", email := "a@example.com", phone := none,
          subject := "Hi", message := "Hello there",
          coordinates := [77, 28], ipAddress := "127.0.0.1" }],
       { status := 201, success := true, adminSent := false,
         clientSent := false }) ∧
    bookingsHandler [] { bookingId := "B1", userId := "u1", payload := "p" }
      true false false =
      ([{ bookingId := "B1", userId := "u1", payload := "p" }],
       { status := 200, success := true, adminSent := false,
         userSent := false }) :=
  c8_partial_success [] "Asha" "a@example.com" "Hi" "Hello there" none
    [77, 28] "127.0.0.1" [] { bookingId := "B1", userId := "u1", payload := "p" }
    (by decide) (by decide) (by decide) (by decide)

/-- Claim C9 (confirmed): for every random-source value r in [0, 1),
the generated code Math.floor(100000 + r * 900000) lies in
[100000, 999999] and its decimal rendering has exactly six digits,
each of them a decimal digit. -/
theorem c9_otp_six_digits (r : ℚ) (h0 : 0 ≤ r) (h1 : r < 1) :
    100000 ≤ genOtp r ∧ genOtp r ≤ 999999 ∧
    (Nat.digits 10 (genOtp r).toNat).length = 6 ∧
    ∀ d ∈ Nat.digits 10 (genOtp r).toNat, d < 10 := by
  have hlo : (100000 : ℤ) ≤ genOtp r := by
    unfold genOtp
    rw [Int.le_floor]
    have hr : (0 : ℚ) ≤ r * 900000 := mul_nonneg h0 (by norm_num)
    push_cast
    linarith
  have hhi : genOtp r ≤ 999999 := by
    have hlt : genOtp r < 1000000 := by
      unfold genOtp
      rw [Int.floor_lt]
      have hr : r * 900000 < 900000 := by nlinarith
      push_cast
      linarith
    omega
  have hlo2 : 100000 ≤ (genOtp r).toNat := by omega
  have hhi2 : (genOtp r).toNat ≤ 999999 := by omega
  refine ⟨hlo, hhi, ?_, fun d hd => Nat.digits_lt_base (by norm_num) hd⟩
  rw [Nat.digits_len 10 _ (by norm_num) (by omega)]
  have hlog : Nat.log 10 (genOtp r).toNat = 5 := by
    apply Nat.log_eq_of_pow_le_of_lt_pow
    · norm_num
      omega
    · norm_num
      omega
  omega

/-- Claim C9 at a concrete input: r = 1/2 gives the code 550000, six
decimal digits in range. -/
theorem c9_otp_six_digits_witness :
    100000 ≤ genOtp (1 / 2) ∧ genOtp (1 / 2) ≤ 999999 ∧
    (Nat.digits 10 (genOtp (1 / 2)).toNat).length = 6 ∧
    ∀ d ∈ Nat.digits 10 (genOtp (1 / 2)).toNat, d < 10 :=
  c9_otp_six_digits (1 / 2) (by norm_num) (by norm_num)

/-- Claim C10 (confirmed): the login handler never writes to the
store; it answers with a token exactly when the account exists, is
verified, and the bcrypt comparison succeeds (the token then being the
7-day JWT bound to the account id); in every other case it answers 401
with success false and no token. -/
theorem c10_login_token_iff (s : Store) (email password : String)
    (cmp : String → String → Bool) (secret : String) (now : Nat) :
    (login s email password cmp secret now).1 = s ∧
    ((∃ user, findUserByEmail s email = some user ∧ user.verified = true ∧
        cmp password user.password = true) →
      ∃ user, findUserByEmail s email = some user ∧
        (login s email password cmp secret now).2 =
          { status := 200, success := true,
            token := some { userId := user.id,
                            exp := now + 7 * 24 * 60 * 60 * 1000,
                            secret := secret },
            message := "Login successful" }) ∧
    ((¬ ∃ user, findUserByEmail s email = some user ∧ user.verified = true ∧
        cmp password user.password = true) →
      (login s email password cmp secret now).2.status = 401 ∧
      (login s email password cmp secret now).2.success = false ∧
      (login s email password cmp secret now).2.token = none) := by
  cases hf : findUserByEmail s email with
  | none =>
    refine ⟨?_, ?_, ?_⟩
    · unfold login
      rw [hf]
    · rintro ⟨u, hu, _⟩
      exact Option.noConfusion hu
    · intro _
      unfold login
      rw [hf]
      exact ⟨rfl, rfl, rfl⟩
  | some u =>
    by_cases hv : u.verified = true
    · by_cases hc : cmp password u.password = true
      · have hrun : login s email password cmp secret now =
            (s, { status := 200, success := true,
                  token := some { userId := u.id,
                                  exp := now + 7 * 24 * 60 * 60 * 1000,
                                  secret := secret },
                  message := "Login successful" }) := by
          unfold login
          rw [hf]
          simp [hv, hc]
        refine ⟨by rw [hrun], fun _ => ⟨u, rfl, by rw [hrun]⟩, fun hno => ?_⟩
        exact absurd ⟨u, rfl, hv, hc⟩ hno
      · have hc2 : cmp password u.password = false :=
          Bool.eq_false_iff.mpr hc
        have hrun : login s email password cmp secret now =
            (s, { status := 401, success := false, token := none,
                  message := "Invalid credentials" }) := by
          unfold login
          rw [hf]
          simp [hv, hc2]
        refine ⟨by rw [hrun], ?_, fun _ => by rw [hrun]; exact ⟨rfl, rfl, rfl⟩⟩
        rintro ⟨u2, hu2, hv2, hcmp2⟩
        cases Option.some.inj hu2
        exact absurd hcmp2 hc
    · have hv2 : u.verified = false := Bool.eq_false_iff.mpr hv
      have hrun : login s email password cmp secret now =
          (s, { status := 401, success := false, token := none,
                message := "Please verify your email first." }) := by
        unfold login
        rw [hf]
        simp [hv2]
      refine ⟨by rw [hrun], ?_, fun _ => by rw [hrun]; exact ⟨rfl, rfl, rfl⟩⟩
      rintro ⟨u2, hu2, hver2, hcmp2⟩
      cases Option.some.inj hu2
      exact absurd hver2 hv

/-- Claim C10 at a concrete input: login of the verified fixture user
with the matching password and with a wrong-password attempt covered by
the negative branch of the instantiated statement. -/
theorem c10_login_token_iff_witness :
    (login [cexVerifiedUser] "a@example.com" "hashA" cmpEq "secret" 0).1 =
      [cexVerifiedUser] ∧
    ((∃ user, findUserByEmail [cexVerifiedUser] "a@example.com" = some user ∧
        user.verified = true ∧ cmpEq "hashA" user.password = true) →
      ∃ user, findUserByEmail [cexVerifiedUser] "a@example.com" = some user ∧
        (login [cexVerifiedUser] "a@example.com" "hashA" cmpEq "secret" 0).2 =
          { status := 200, success := true,
            token := some { userId := user.id,
                            exp := 0 + 7 * 24 * 60 * 60 * 1000,
                            secret := "secret" },
            message := "Login successful" }) ∧
    ((¬ ∃ user, findUserByEmail [cexVerifiedUser] "a@example.com" = some user ∧
        user.verified = true ∧ cmpEq "hashA" user.password = true) →
      (login [cexVerifiedUser] "a@example.com" "hashA" cmpEq "secret" 0).2.status =
        401 ∧
      (login [cexVerifiedUser] "a@example.com" "hashA" cmpEq "secret" 0).2.success =
        false ∧
      (login [cexVerifiedUser] "a@example.com" "hashA" cmpEq "secret" 0).2.token =
        none) :=
  c10_login_token_iff [cexVerifiedUser] "a@example.com" "hashA" cmpEq "secret" 0

end Tourit
